import Mathlib

/-!
Verification of the command execution and adaptive sequencing engine of the
Windows-health-check repository (`src/commands.py`, `src/main.py`).

The Python source is shallowly embedded: pure string manipulation is modelled
over `String`/`List Char`, process behaviour is passed in explicitly (the list
of raw lines a stream produced, the exit code, or a spawn failure), and the
per-step progress ramp is modelled over `ℚ` with one recursion step per 100 ms
tick of the source loop.
-/

/-- Python `s.startswith(pre)`: `pre.data` is a prefix of `s.data`.
Helper recursion over character lists. -/
def listPre : List Char → List Char → Bool
  | [], _ => true
  | _ :: _, [] => false
  | a :: as, b :: bs => a == b && listPre as bs

/-- Occurrence of `needle` as a contiguous substring of `hay`
(Python's `needle in hay` on strings). -/
def substrOccurs : List Char → List Char → Bool
  | n, [] => n.isEmpty
  | n, h :: t => listPre n (h :: t) || substrOccurs n t

/-- Python `s.startswith(pre)`. -/
def pyStartsWith (s pre : String) : Bool := listPre pre.data s.data

/-- Python `needle in hay` for strings. -/
def pyIn (needle hay : String) : Bool := substrOccurs needle.data hay.data

/-- Python `s.lower()` (ASCII case folding, which is all the engine uses). -/
def pyLower (s : String) : String := ⟨s.data.map Char.toLower⟩

/-- Python `line.rstrip('\r\n')`: drop every trailing carriage-return or
line-feed character (`commands.py` line 46). -/
def rstripCRLF (s : String) : String :=
  ⟨(s.data.reverse.dropWhile (fun c => c == '\r' || c == '\n')).reverse⟩

/-- Python `"\n".join(lines)` (`commands.py` lines 154-155): pieces joined by a
single newline, no leading or trailing delimiter. -/
def joinNL : List String → String
  | [] => ""
  | [s] => s
  | s :: rest => s ++ "\n" ++ joinNL rest

/-- `CommandResult` from `commands.py` lines 14-21: container for one
completed invocation. -/
structure CommandResult where
  command : String
  exitCode : Int
  output : String
  error : String
deriving DecidableEq, Repr

/-- `self.success = exit_code == 0` (`commands.py` line 21): success is derived
purely from the exit code. -/
def CommandResult.success (r : CommandResult) : Bool := r.exitCode == 0

/-- `WindowsCommandExecutor._read_output` (`commands.py` lines 38-52) applied
to the raw lines a pipe produced: each raw line is stripped of trailing
`\r`/`\n`, empty results are dropped, survivors are tagged with `pre` and
queued in order. -/
def read_output (pre : String) (raws : List String) : List String :=
  raws.filterMap (fun line =>
    let clean := rstripCRLF line
    if clean = "" then none else some (pre ++ clean))

/-- `_read_output` when the reader raises mid-stream (`commands.py` lines
49-50): the lines queued so far, followed by one synthetic `ERROR: `-prefixed
line carrying the exception text (note: the reader's `pre` tag is NOT applied
to the synthetic line). -/
def read_output_decode_failure (pre : String) (raws : List String) (msg : String) :
    List String :=
  read_output pre raws ++ ["ERROR: " ++ msg]

/-- The error accumulation of `execute_command` (`commands.py` lines 128-129,
146-147): exactly the queued lines whose text starts with `ERROR:`. -/
def error_lines (queueLines : List String) : List String :=
  queueLines.filter (fun l => pyStartsWith l "ERROR:")

/-- The sequence of calls made to the line sink for one invocation
(`commands.py` lines 86-87 and 125-126): the echoed `C:\> <command>` line,
then every queued line in arrival order. -/
def output_callback_trace (command : String) (queueLines : List String) : List String :=
  ("C:\\> " ++ command) :: queueLines

/-- `WindowsCommandExecutor.execute_command` on the happy path (`commands.py`
lines 119-156), as a function of the final ordered queue contents and the
process exit code: output is the newline-join of all queued lines, error the
newline-join of the `ERROR:`-prefixed subset. -/
def execute_command (command : String) (queueLines : List String) (exitCode : Int) :
    CommandResult :=
  { command := command
    exitCode := exitCode
    output := joinNL queueLines
    error := joinNL (error_lines queueLines) }

/-- `execute_command` when `subprocess.Popen` raises (`commands.py` lines
158-168): exit code forced to −1, error field carries the failure text,
output keeps whatever lines had been captured. -/
def execute_command_spawn_failure (command : String) (captured : List String)
    (msg : String) : CommandResult :=
  { command := command
    exitCode := -1
    output := joinNL captured
    error := "Failed to execute command: " ++ msg }

/-- Behaviour of one external process, supplied by the environment: either it
runs (final queue contents and exit code) or the spawn primitive raises. -/
inductive ProcBehavior where
  | ok (queueLines : List String) (exitCode : Int)
  | spawnFail (captured : List String) (msg : String)
deriving DecidableEq

/-- One step of `_execute_tools_thread`: run one command under its supplied
behaviour; a spawn failure is caught inside `execute_command` and still
returns a result. -/
def run_one (cmd : String) : ProcBehavior → CommandResult
  | .ok q e => execute_command cmd q e
  | .spawnFail cap m => execute_command_spawn_failure cmd cap m

/-- The tool loop of `_execute_tools_thread` (`main.py` lines 329-358): every
planned step is executed in order; no step's failure aborts the run. -/
def run_tools (plan : List (String × ProcBehavior)) : List CommandResult :=
  plan.map (fun p => run_one p.1 p.2)

/-- The analysis record returned by `ResultAnalyzer.analyze_tool_result`
(`main.py` lines 22-78): a dict with keys status/message/icon. -/
structure ToolAnalysis where
  status : String
  message : String
  icon : String
deriving DecidableEq, Repr

/-- `ResultAnalyzer.analyze_tool_result` (`main.py` lines 22-78), transliterated
branch by branch. -/
def analyze_tool_result (tool_name : String) (result : CommandResult) : ToolAnalysis :=
  if !result.success then
    { status := "failed"
      message := "Tool execution failed (exit code: " ++ toString result.exitCode ++ ")"
      icon := "❌" }
  else
    let output_lower := pyLower result.output
    if tool_name = "DISM Check Health" then
      if pyIn "no component store corruption detected" output_lower then
        { status := "success", message := "No corruption detected", icon := "✅" }
      else
        { status := "issues_detected", message := "Corruption detected", icon := "⚠️" }
    else if tool_name = "DISM Scan Health" then
      if pyIn "no component store corruption detected" output_lower then
        { status := "success", message := "No corruption detected", icon := "✅" }
      else
        { status := "issues_detected", message := "Corruption detected", icon := "⚠️" }
    else if tool_name = "DISM Restore Health" then
      { status := "success", message := "Repair completed successfully", icon := "✅" }
    else if tool_name = "System File Checker" then
      if pyIn "windows resource protection did not find any integrity violations" output_lower then
        { status := "success", message := "No integrity violations found", icon := "✅" }
      else
        { status := "issues_repaired"
          message := "Integrity violations detected and repaired automatically"
          icon := "🔧" }
    else if tool_name = "Check Disk" then
      if pyIn "windows has scanned the file system and found no problems" output_lower then
        { status := "success", message := "No problems found", icon := "✅" }
      else
        { status := "issues_detected", message := "Issues detected", icon := "⚠️" }
    else if tool_name = "Check Disk Fix" then
      { status := "success", message := "Disk repair completed", icon := "✅" }
    else
      { status := "success", message := "Completed", icon := "✅" }

/-- The signature phrase for the DISM image tools (`main.py` lines 41, 48,
410, 439, 472). -/
def dismCleanSig : String := "no component store corruption detected"

/-- The `dism_check` branch of `HealthCheckApp._execute_single_tool`
(`main.py` lines 404-465), as a function of the three command results the
environment would return and the two prompt answers. Returns the list of
stored `(tool display name, result)` pairs in storage order, together with
the list of confirmation-dialog titles actually shown, in order. -/
def runDismCheck (check scanR restoreR : CommandResult)
    (answerScan answerRestore : Bool) :
    List (String × CommandResult) × List String :=
  let base := [("DISM Check Health", check)]
  if check.success && !(pyIn dismCleanSig (pyLower check.output)) then
    if answerScan then
      let withScan := base ++ [("DISM Scan Health", scanR)]
      if scanR.success && !(pyIn dismCleanSig (pyLower scanR.output)) then
        if answerRestore then
          (withScan ++ [("DISM Restore Health", restoreR)],
           ["DISM Component Store Issues Detected", "DISM Corruption Detected"])
        else
          (withScan, ["DISM Component Store Issues Detected", "DISM Corruption Detected"])
      else
        (withScan, ["DISM Component Store Issues Detected"])
    else
      (base, ["DISM Component Store Issues Detected"])
  else
    (base, [])

/-- The `chkdsk_check` branch of `HealthCheckApp._execute_single_tool`
(`main.py` lines 504-537): the fix is offered only when the check succeeded,
its output is non-empty (Python truthiness of `result.output`), and the
lower-cased output contains `"errors found"`. Returns the stored
`(tool display name, result)` pairs in storage order. -/
def runChkdsk (check fixR : CommandResult) (answerFix : Bool) :
    List (String × CommandResult) :=
  let base := [("Check Disk", check)]
  if check.success && !(check.output == "") && pyIn "errors found" (pyLower check.output) then
    if answerFix then base ++ [("Check Disk Fix", fixR)] else base
  else
    base

/-- The `tool_durations` dict of `start_progress_simulation` (`main.py` lines
135-144) together with the `.get(tool_name, 30)` default of line 148. -/
def tool_durations (name : String) : ℕ :=
  if name = "DISM Check Health" then 2
  else if name = "DISM Scan Health" then 55
  else if name = "DISM Restore Health" then 60
  else if name = "DISM Health Diagnostics" then 57
  else if name = "System File Checker" then 60
  else if name = "Check Disk" then 30
  else if name = "Check Disk Fix" then 60
  else if name = "Disk Check Diagnostics" then 30
  else 30

/-- `increment = 1.0 / (tool_duration * 10)` (`main.py` line 149): the amount
the per-step fraction grows per 100 ms tick. -/
def progIncrement (name : String) : ℚ := 1 / ((tool_durations name : ℚ) * 10)

/-- The per-step fraction of `simulate_progress` after `k` ticks (`main.py`
lines 151-152): the loop increments only while the fraction is still below
0.95, and the post-increment value is what gets displayed. -/
def toolProgress (name : String) : ℕ → ℚ
  | 0 => 0
  | k + 1 =>
    let f := toolProgress name k
    if f < 95 / 100 then f + progIncrement name else f

/-- `max(total_tools_count, completed_tools + 1)` (`main.py` lines 155, 176):
the step-count denominator used for progress. -/
def total_tools_count (original completed : ℕ) : ℕ := max original (completed + 1)

/-- `total_progress = base_progress + current_tool_progress * tool_portion`
(`main.py` lines 155-157 with line 178: `base_progress = completed / total`,
`tool_portion = 1 / total`; the `total > 0` guards are always true since the
denominator is at least `completed + 1 ≥ 1`). -/
def total_progress (original completed : ℕ) (name : String) (k : ℕ) : ℚ :=
  (completed : ℚ) / (total_tools_count original completed : ℚ)
    + toolProgress name k * (1 / (total_tools_count original completed : ℚ))

/-! ### Helper lemmas -/

theorem listPre_append_self : ∀ a b : List Char, listPre a (a ++ b) = true := by
  intro a b
  induction a with
  | nil => simp [listPre]
  | cons c cs ih => simp [listPre, ih]

theorem pyStartsWith_append_self (a b : String) : pyStartsWith (a ++ b) a = true := by
  show listPre a.data (a.data ++ b.data) = true
  exact listPre_append_self a.data b.data

theorem joinNL_length :
    ∀ l : List String, l ≠ [] →
      (joinNL l).length = (l.map String.length).sum + (l.length - 1)
  | [], h => absurd rfl h
  | [s], _ => by simp [joinNL]
  | s :: t :: rest, _ => by
    have ih := joinNL_length (t :: rest) (by simp)
    have hnl : ("\n" : String).length = 1 := rfl
    simp only [joinNL, String.length_append, hnl] at ih ⊢
    simp only [List.map_cons, List.sum_cons, List.length_cons] at ih ⊢
    omega

theorem read_output_empty_pre (raws : List String) :
    read_output "" raws =
      raws.filterMap (fun l => if rstripCRLF l = "" then none else some (rstripCRLF l)) := by
  simp [read_output, String.empty_append]

theorem read_output_length (raws : List String) :
    (read_output "" raws).length = (raws.filter (fun l => !(rstripCRLF l == ""))).length := by
  induction raws with
  | nil => simp [read_output]
  | cons l t ih =>
    by_cases h : rstripCRLF l = "" <;>
      simp [read_output, List.filterMap_cons, List.filter_cons, h] <;>
      simpa [read_output] using ih

theorem read_output_ne_empty (raws : List String) :
    ∀ s ∈ read_output "" raws, s ≠ "" := by
  intro s hs
  rw [read_output_empty_pre] at hs
  rcases List.mem_filterMap.mp hs with ⟨l, _, hl⟩
  by_cases h : rstripCRLF l = ""
  · simp [h] at hl
  · simp [h] at hl
    exact hl ▸ h

theorem tool_durations_ge_two (name : String) : 2 ≤ tool_durations name := by
  unfold tool_durations
  split_ifs <;> norm_num

theorem progIncrement_pos (name : String) : 0 < progIncrement name := by
  have h := tool_durations_ge_two name
  unfold progIncrement
  have : (0 : ℚ) < (tool_durations name : ℚ) := by exact_mod_cast Nat.lt_of_lt_of_le (by norm_num) h
  positivity

theorem progIncrement_le (name : String) : progIncrement name ≤ 1 / 20 := by
  have h := tool_durations_ge_two name
  have h2 : (2 : ℚ) ≤ (tool_durations name : ℚ) := by exact_mod_cast h
  unfold progIncrement
  rw [div_le_div_iff₀ (by linarith) (by norm_num)]
  linarith

theorem toolProgress_nonneg (name : String) (k : ℕ) : 0 ≤ toolProgress name k := by
  induction k with
  | zero => simp [toolProgress]
  | succ n ih =>
    have := progIncrement_pos name
    simp only [toolProgress]
    split_ifs <;> linarith

theorem toolProgress_lt (name : String) (k : ℕ) :
    toolProgress name k < 95 / 100 + progIncrement name := by
  induction k with
  | zero =>
    have := progIncrement_pos name
    simp only [toolProgress]
    linarith
  | succ n ih =>
    simp only [toolProgress]
    split_ifs with h
    · linarith
    · exact ih

theorem toolProgress_eq_of_lt (name : String) :
    ∀ k : ℕ, (∀ j : ℕ, j < k → (j : ℚ) * progIncrement name < 95 / 100) →
      toolProgress name k = (k : ℚ) * progIncrement name := by
  intro k
  induction k with
  | zero => intro _; simp [toolProgress]
  | succ n ih =>
    intro h
    have hn := ih (fun j hj => h j (Nat.lt_succ_of_lt hj))
    have hlt : (n : ℚ) * progIncrement name < 95 / 100 := h n (Nat.lt_succ_self n)
    simp only [toolProgress, hn]
    rw [if_pos hlt]
    push_cast
    ring

theorem progIncrement_scan : progIncrement "DISM Scan Health" = 1 / 550 := by
  have h : tool_durations "DISM Scan Health" = 55 := rfl
  rw [progIncrement, h]
  norm_num

theorem toolProgress_scan_523 : toolProgress "DISM Scan Health" 523 = 523 / 550 := by
  rw [toolProgress_eq_of_lt "DISM Scan Health" 523]
  · rw [progIncrement_scan]; norm_num
  · intro j hj
    rw [progIncrement_scan]
    have hj' : (j : ℚ) ≤ 522 := by exact_mod_cast Nat.lt_succ_iff.mp hj
    nlinarith

theorem progIncrement_check : progIncrement "DISM Check Health" = 1 / 20 := by
  have h : tool_durations "DISM Check Health" = 2 := rfl
  rw [progIncrement, h]
  norm_num

theorem toolProgress_check_19 : toolProgress "DISM Check Health" 19 = 95 / 100 := by
  rw [toolProgress_eq_of_lt "DISM Check Health" 19]
  · rw [progIncrement_check]; norm_num
  · intro j hj
    rw [progIncrement_check]
    have hj' : (j : ℚ) ≤ 18 := by exact_mod_cast Nat.lt_succ_iff.mp hj
    nlinarith

/-! ### Claim theorems -/

/-- C1: for every successful ExecutionResult, `analyze_tool_result` follows the
tool signature rules: the DISM image check/deep-scan tools are `success`
(clean) exactly when the lower-cased output contains the corruption-free
phrase and `issues_detected` otherwise; the System File Checker is `success`
exactly when it contains the no-integrity-violations phrase and
`issues_repaired` otherwise; Check Disk (verify-only) is `success` exactly
when it contains the no-problems phrase and `issues_detected` otherwise; the
image-repair tool (DISM Restore Health) and Check Disk Fix are always
`success` on a successful exit. Matching is case-insensitive substring
matching over the full output text (`pyIn` over `pyLower`). -/
theorem classifier_signature_rules (r : CommandResult) (hs : r.success = true) :
    ((analyze_tool_result "DISM Check Health" r).status =
      if pyIn "no component store corruption detected" (pyLower r.output) then "success"
      else "issues_detected")
    ∧ ((analyze_tool_result "DISM Scan Health" r).status =
      if pyIn "no component store corruption detected" (pyLower r.output) then "success"
      else "issues_detected")
    ∧ ((analyze_tool_result "DISM Restore Health" r).status = "success")
    ∧ ((analyze_tool_result "System File Checker" r).status =
      if pyIn "windows resource protection did not find any integrity violations"
          (pyLower r.output) then "success"
      else "issues_repaired")
    ∧ ((analyze_tool_result "Check Disk" r).status =
      if pyIn "windows has scanned the file system and found no problems"
          (pyLower r.output) then "success"
      else "issues_detected")
    ∧ ((analyze_tool_result "Check Disk Fix" r).status = "success") := by
  refine ⟨?_, ?_, ?_, ?_, ?_, ?_⟩
  · cases h1 : pyIn "no component store corruption detected" (pyLower r.output) <;>
      simp [analyze_tool_result, hs, h1]
  · cases h1 : pyIn "no component store corruption detected" (pyLower r.output) <;>
      simp [analyze_tool_result, hs, h1]
  · simp [analyze_tool_result, hs]
  · cases h1 : pyIn "windows resource protection did not find any integrity violations"
        (pyLower r.output) <;>
      simp [analyze_tool_result, hs, h1]
  · cases h1 : pyIn "windows has scanned the file system and found no problems"
        (pyLower r.output) <;>
      simp [analyze_tool_result, hs, h1]
  · simp [analyze_tool_result, hs]

/-- Witness for C1: a concrete successful SFC result without the clean phrase
is classified `issues_repaired`. -/
theorem classifier_signature_rules_witness :
    (CommandResult.mk "sfc /scannow" 0 "Windows Resource Protection found corrupt files" "").success
        = true
    ∧ (analyze_tool_result "System File Checker"
        ⟨"sfc /scannow", 0, "Windows Resource Protection found corrupt files", ""⟩).status
        = "issues_repaired" := by
  refine ⟨by decide, ?_⟩
  have h := (classifier_signature_rules
    ⟨"sfc /scannow", 0, "Windows Resource Protection found corrupt files", ""⟩
    (by decide)).2.2.2.1
  rw [h]
  decide

/-- C2: success is derived purely as `exit_code == 0`, and any result with a
non-zero exit code is classified `failed` (execution-failed) by every tool
rule, regardless of output content. -/
theorem failure_classification :
    (∀ r : CommandResult, r.success = (r.exitCode == 0))
    ∧ (∀ (tool c : String) (ec : Int) (o e : String), ec ≠ 0 →
        (CommandResult.mk c ec o e).success = false
        ∧ (analyze_tool_result tool ⟨c, ec, o, e⟩).status = "failed") := by
  refine ⟨fun r => rfl, ?_⟩
  intro tool c ec o e h
  have hb : (ec == 0) = false := beq_eq_false_iff_ne.mpr h
  have hsucc : (CommandResult.mk c ec o e).success = false := by
    simp [CommandResult.success, hb]
  exact ⟨hsucc, by simp [analyze_tool_result, hsucc]⟩

/-- Witness for C2: exit code 1 with output containing the Check Disk clean
phrase is still classified `failed`. -/
theorem failure_classification_witness :
    (1 : Int) ≠ 0
    ∧ (analyze_tool_result "Check Disk"
        ⟨"chkdsk c:", 1, "windows has scanned the file system and found no problems", ""⟩).status
        = "failed" :=
  ⟨by decide,
   (failure_classification.2 "Check Disk" "chkdsk c:" 1
      "windows has scanned the file system and found no problems" "" (by decide)).2⟩

/-- C9: for a successful result, any tool name outside the six known names
falls through every signature branch and is classified `success` (clean):
absence of a known signature is never read as issues or failure. -/
theorem unknown_tool_fail_open (name : String) (r : CommandResult)
    (h1 : name ≠ "DISM Check Health") (h2 : name ≠ "DISM Scan Health")
    (h3 : name ≠ "DISM Restore Health") (h4 : name ≠ "System File Checker")
    (h5 : name ≠ "Check Disk") (h6 : name ≠ "Check Disk Fix")
    (hs : r.success = true) :
    (analyze_tool_result name r).status = "success" := by
  simp [analyze_tool_result, hs, h1, h2, h3, h4, h5, h6]

/-- Witness for C9: an unrecognized tool name with successful exit and
arbitrary output is classified `success`. -/
theorem unknown_tool_fail_open_witness :
    (analyze_tool_result "Disk Defragmenter"
      ⟨"defrag c:", 0, "fragmentation detected everywhere", ""⟩).status = "success" :=
  unknown_tool_fail_open "Disk Defragmenter"
    ⟨"defrag c:", 0, "fragmentation detected everywhere", ""⟩
    (by decide) (by decide) (by decide) (by decide) (by decide) (by decide) (by decide)

/-- C3 counterexample: a failed DISM Check Health result (exit code 1) is
classified other than clean (`failed`), yet `_execute_single_tool` shows no
confirmation dialog at all — the prompt requires `result.success`, so
execution-failed never triggers the deep-scan offer. -/
theorem dism_prompt_counterexample :
    (analyze_tool_result "DISM Check Health"
      ⟨"DISM /Online /Cleanup-Image /CheckHealth", 1, "", ""⟩).status ≠ "success"
    ∧ (runDismCheck ⟨"DISM /Online /Cleanup-Image /CheckHealth", 1, "", ""⟩
        ⟨"DISM /Online /Cleanup-Image /ScanHealth", 0, "", ""⟩
        ⟨"DISM /Online /Cleanup-Image /RestoreHealth", 0, "", ""⟩ true true).2 = [] := by
  constructor
  · decide
  · decide

/-- C3 amended: for the `dism_check` entry point, the confirmation callback is
invoked exactly when the check result succeeded and its lower-cased output
lacks the corruption-free phrase (i.e. when it is classified issues-detected,
not for execution-failed results); on an affirmative answer the deep-scan
step runs next and its result is folded into the same run's collection right
after the check's. -/
theorem dism_prompt_amended (check scanR restoreR : CommandResult)
    (aScan aRestore : Bool) :
    ((runDismCheck check scanR restoreR aScan aRestore).2 ≠ []
      ↔ (check.success = true ∧ pyIn dismCleanSig (pyLower check.output) = false))
    ∧ (check.success = true → pyIn dismCleanSig (pyLower check.output) = false →
        (runDismCheck check scanR restoreR true aRestore).1.take 2 =
          [("DISM Check Health", check), ("DISM Scan Health", scanR)]) := by
  constructor
  · cases hs : check.success <;> cases hp : pyIn dismCleanSig (pyLower check.output)
    · simp [runDismCheck, hs, hp]
    · simp [runDismCheck, hs, hp]
    · simp only [runDismCheck, hs, hp]
      simp only [Bool.not_false, Bool.and_true, Bool.true_and, if_true]
      constructor
      · intro _
        exact ⟨by simp, by simp⟩
      · intro _
        split_ifs <;> simp
    · simp [runDismCheck, hs, hp]
  · intro hs hp
    simp only [runDismCheck, hs, hp, Bool.not_false, Bool.and_true, Bool.true_and, if_true]
    split_ifs <;> simp

/-- Witness for C3 amended: a successful check whose output reports corruption
triggers the prompt, and with an affirmative answer the deep-scan result is
stored immediately after the check result. -/
theorem dism_prompt_amended_witness :
    (runDismCheck ⟨"DISM /Online /Cleanup-Image /CheckHealth", 0, "The component store is repairable.", ""⟩
        ⟨"DISM /Online /Cleanup-Image /ScanHealth", 0, "", ""⟩
        ⟨"DISM /Online /Cleanup-Image /RestoreHealth", 0, "", ""⟩ true true).2 ≠ []
    ∧ (runDismCheck ⟨"DISM /Online /Cleanup-Image /CheckHealth", 0, "The component store is repairable.", ""⟩
        ⟨"DISM /Online /Cleanup-Image /ScanHealth", 0, "", ""⟩
        ⟨"DISM /Online /Cleanup-Image /RestoreHealth", 0, "", ""⟩ true true).1.take 2 =
      [("DISM Check Health",
          ⟨"DISM /Online /Cleanup-Image /CheckHealth", 0, "The component store is repairable.", ""⟩),
       ("DISM Scan Health", ⟨"DISM /Online /Cleanup-Image /ScanHealth", 0, "", ""⟩)] :=
  ⟨(dism_prompt_amended
      ⟨"DISM /Online /Cleanup-Image /CheckHealth", 0, "The component store is repairable.", ""⟩
      ⟨"DISM /Online /Cleanup-Image /ScanHealth", 0, "", ""⟩
      ⟨"DISM /Online /Cleanup-Image /RestoreHealth", 0, "", ""⟩ true true).1.mpr
    ⟨by decide, by decide⟩,
   (dism_prompt_amended
      ⟨"DISM /Online /Cleanup-Image /CheckHealth", 0, "The component store is repairable.", ""⟩
      ⟨"DISM /Online /Cleanup-Image /ScanHealth", 0, "", ""⟩
      ⟨"DISM /Online /Cleanup-Image /RestoreHealth", 0, "", ""⟩ true true).2
    (by decide) (by decide)⟩

/-- C4 counterexample: a successful Check Disk result whose output contains
neither the clean phrase nor `"errors found"` is classified issues-detected,
yet even with an affirmative callback only one result is produced — the fix
step is triggered by the `"errors found"` substring, not by the
classification. -/
theorem chkdsk_trigger_counterexample :
    (analyze_tool_result "Check Disk" ⟨"chkdsk c:", 0, "scan complete", ""⟩).status
      = "issues_detected"
    ∧ (runChkdsk ⟨"chkdsk c:", 0, "scan complete", ""⟩
        ⟨"chkdsk c: /f", 0, "", ""⟩ true).length = 1 := by
  constructor
  · decide
  · decide

/-- C4 amended: for a plan containing only the disk-check step, if the check
succeeded, its output is non-empty and contains `"errors found"`
case-insensitively, and the confirmation callback returns true, then exactly
two results are produced, in order `[check, fix]`, with the fix immediately
after the check. -/
theorem chkdsk_trigger_amended (check fixR : CommandResult)
    (hs : check.success = true) (hne : check.output ≠ "")
    (herr : pyIn "errors found" (pyLower check.output) = true) :
    runChkdsk check fixR true = [("Check Disk", check), ("Check Disk Fix", fixR)] := by
  have hb : (check.output == "") = false := beq_eq_false_iff_ne.mpr hne
  simp [runChkdsk, hs, hb, herr]

/-- Witness for C4 amended: a concrete check result reporting errors leads to
exactly the two-step `[check, fix]` outcome. -/
theorem chkdsk_trigger_amended_witness :
    runChkdsk ⟨"chkdsk c:", 0, "Errors found.  CHKDSK cannot continue in read-only mode.", ""⟩
        ⟨"chkdsk c: /f", 0, "", ""⟩ true =
      [("Check Disk",
          ⟨"chkdsk c:", 0, "Errors found.  CHKDSK cannot continue in read-only mode.", ""⟩),
       ("Check Disk Fix", ⟨"chkdsk c: /f", 0, "", ""⟩)] :=
  chkdsk_trigger_amended
    ⟨"chkdsk c:", 0, "Errors found.  CHKDSK cannot continue in read-only mode.", ""⟩
    ⟨"chkdsk c: /f", 0, "", ""⟩ (by decide) (by decide) (by decide)

/-- C5 counterexample: the per-step fraction does NOT stay at or below the
0.95 ceiling. The loop tests `< 0.95` before adding the increment, so for the
55-second DISM Scan Health step the fraction reaches 523/550 ≈ 0.9509 > 0.95
after 523 ticks. -/
theorem progress_ceiling_counterexample :
    95 / 100 < toolProgress "DISM Scan Health" 523 := by
  rw [toolProgress_scan_523]
  norm_num

/-- C5 amended: the step-count denominator `max(original, completed + 1)` is
always strictly larger than the completed-step numerator; the per-step
fraction stops ramping as soon as it is at least 0.95 (so it exceeds 0.95 by
strictly less than one increment, and since every configured duration is at
least 2 seconds it stays strictly below 1); and the overall displayed
progress `completed/total + fraction/total` never exceeds 1.0. -/
theorem progress_invariants_amended (original completed : ℕ) (name : String) (k : ℕ) :
    completed < total_tools_count original completed
    ∧ (95 / 100 ≤ toolProgress name k → toolProgress name (k + 1) = toolProgress name k)
    ∧ toolProgress name k < 95 / 100 + progIncrement name
    ∧ total_progress original completed name k ≤ 1 := by
  have hT : completed + 1 ≤ total_tools_count original completed :=
    Nat.le_max_right original (completed + 1)
  refine ⟨Nat.lt_of_lt_of_le (Nat.lt_succ_self completed) hT, ?_, toolProgress_lt name k, ?_⟩
  · intro h
    simp only [toolProgress]
    rw [if_neg (not_lt.mpr h)]
  · have hTq : (completed : ℚ) + 1 ≤ (total_tools_count original completed : ℚ) := by
      exact_mod_cast hT
    have hTpos : (0 : ℚ) < (total_tools_count original completed : ℚ) := by
      have : (0 : ℚ) ≤ (completed : ℚ) := by positivity
      linarith
    have hfr : toolProgress name k ≤ 1 := by
      have h1 := toolProgress_lt name k
      have h2 := progIncrement_le name
      linarith
    have hfr0 : 0 ≤ toolProgress name k := toolProgress_nonneg name k
    rw [total_progress, mul_one_div, div_add_div_same, div_le_one hTpos]
    linarith

/-- Witness for C5 amended: for the 2-second DISM Check Health step the
fraction reaches exactly 0.95 after 19 ticks and stops there, and the overall
progress stays at most 1. -/
theorem progress_invariants_amended_witness :
    (95 : ℚ) / 100 ≤ toolProgress "DISM Check Health" 19
    ∧ toolProgress "DISM Check Health" 20 = toolProgress "DISM Check Health" 19
    ∧ total_progress 1 0 "DISM Check Health" 19 ≤ 1 :=
  ⟨le_of_eq toolProgress_check_19.symm,
   (progress_invariants_amended 1 0 "DISM Check Health" 19).2.1
     (le_of_eq toolProgress_check_19.symm),
   (progress_invariants_amended 1 0 "DISM Check Health" 19).2.2.2⟩

/-- C6: for a stdout-only invocation, the line sink observes the echoed
`C:\> <command>` line first and then, in emission order, exactly the raw
lines that are non-empty after stripping trailing carriage-returns and
line-feeds — so the sink is invoked once plus once per non-empty line, every
delivered line has its trailing `\r`/`\n` removed, and lines that strip to
empty are never delivered. -/
theorem line_sink_observation (cmd : String) (raws : List String) :
    output_callback_trace cmd (read_output "" raws)
        = ("C:\\> " ++ cmd)
            :: raws.filterMap (fun l => if rstripCRLF l = "" then none else some (rstripCRLF l))
    ∧ (output_callback_trace cmd (read_output "" raws)).length
        = 1 + (raws.filter (fun l => !(rstripCRLF l == ""))).length
    ∧ (∀ s ∈ read_output "" raws, s ≠ "") := by
  refine ⟨?_, ?_, read_output_ne_empty raws⟩
  · rw [output_callback_trace, read_output_empty_pre]
  · rw [output_callback_trace, List.length_cons, read_output_length]
    omega

/-- Witness for C6: on a concrete raw stream, the delivered line `"hello"` is
in the sink stream and is non-empty (the `"\r\n"`-only line was dropped). -/
theorem line_sink_observation_witness :
    output_callback_trace "echo hi" (read_output "" ["hello\r\n", "\r\n", "world"])
        = ["C:\\> echo hi", "hello", "world"]
    ∧ "hello" ∈ read_output "" ["hello\r\n", "\r\n", "world"]
    ∧ "hello" ≠ "" :=
  ⟨((line_sink_observation "echo hi" ["hello\r\n", "\r\n", "world"]).1).trans (by decide),
   by decide,
   (line_sink_observation "echo hi" ["hello\r\n", "\r\n", "world"]).2.2 "hello" (by decide)⟩

/-- C7: the result's output field is the newline-join of all accumulated lines
in arrival order, the error field is the newline-join of the `ERROR:`-tagged
subset in arrival order, the join uses exactly one separator between
consecutive pieces (so the length is the sum of the piece lengths plus
`n - 1` — no trailing delimiter), and a process emitting no output and
exiting 0 yields `succeeded = true`, `output = ""` and `error = ""`. -/
theorem result_materialization (cmd : String) (lines : List String) (ec : Int) :
    (execute_command cmd lines ec).output = joinNL lines
    ∧ (execute_command cmd lines ec).error = joinNL (error_lines lines)
    ∧ (lines ≠ [] →
        (joinNL lines).length = (lines.map String.length).sum + (lines.length - 1))
    ∧ ((execute_command cmd [] 0).success = true
        ∧ (execute_command cmd [] 0).output = ""
        ∧ (execute_command cmd [] 0).error = "") :=
  ⟨rfl, rfl, joinNL_length lines, rfl, rfl, rfl⟩

/-- Witness for C7: for two concrete lines the join has length sum + 1
(a single separator, none trailing). -/
theorem result_materialization_witness :
    (["a", "bc"] : List String) ≠ []
    ∧ (joinNL ["a", "bc"]).length = ((["a", "bc"] : List String).map String.length).sum + 1 :=
  ⟨by decide, (result_materialization "x" ["a", "bc"] 0).2.2.1 (by decide)⟩

/-- C8: when the spawn primitive raises, the result carries exit code −1, the
failure text in the error field, the already-captured lines in the output
field, and `succeeded = false`; and the failure is fatal to that step only —
the run executes every planned step and a spawn-failing step just contributes
its failure result in place. -/
theorem spawn_failure_isolation (cmd : String) (cap : List String) (msg : String) :
    (execute_command_spawn_failure cmd cap msg).exitCode = -1
    ∧ (execute_command_spawn_failure cmd cap msg).error = "Failed to execute command: " ++ msg
    ∧ (execute_command_spawn_failure cmd cap msg).output = joinNL cap
    ∧ (execute_command_spawn_failure cmd cap msg).success = false
    ∧ (∀ plan : List (String × ProcBehavior), (run_tools plan).length = plan.length)
    ∧ (∀ pre post : List (String × ProcBehavior),
        run_tools (pre ++ (cmd, ProcBehavior.spawnFail cap msg) :: post)
          = run_tools pre ++ execute_command_spawn_failure cmd cap msg :: run_tools post) := by
  refine ⟨rfl, rfl, rfl, rfl, ?_, ?_⟩
  · intro plan
    simp [run_tools]
  · intro pre post
    simp [run_tools, run_one]

/-- Witness for C8: the length and decomposition conjuncts applied to a
concrete plan whose middle step spawn-fails. -/
theorem spawn_failure_isolation_witness :
    (run_tools [("echo a", ProcBehavior.ok ["a"] 0),
                ("bad", ProcBehavior.spawnFail [] "boom"),
                ("echo b", ProcBehavior.ok ["b"] 0)]).length = 3
    ∧ run_tools [("bad", ProcBehavior.spawnFail [] "boom")]
        = [execute_command_spawn_failure "bad" [] "boom"] :=
  ⟨(spawn_failure_isolation "bad" [] "boom").2.2.2.2.1 _,
   (spawn_failure_isolation "bad" [] "boom").2.2.2.2.2 [] []⟩

/-- C10: a line enters the error accumulation exactly when its delivered text
starts with the literal `ERROR:` prefix — membership in the error list is by
text prefix, not by stream origin — the result's error field is the
newline-join of that subset, and a stdout-originated synthetic decode-failure
line (`ERROR: <msg>`, queued with the stdout reader's empty tag) lands in the
error accumulation even though it never came from stderr. -/
theorem error_tagging_by_text :
    (∀ (qlines : List String) (l : String),
        l ∈ error_lines qlines ↔ l ∈ qlines ∧ pyStartsWith l "ERROR:" = true)
    ∧ (∀ (cmd : String) (qlines : List String) (ec : Int),
        (execute_command cmd qlines ec).error = joinNL (error_lines qlines))
    ∧ (∀ (raws : List String) (msg : String),
        ("ERROR: " ++ msg) ∈ error_lines (read_output_decode_failure "" raws msg)) := by
  refine ⟨?_, fun _ _ _ => rfl, ?_⟩
  · intro qlines l
    simp [error_lines, List.mem_filter]
  · intro raws msg
    have hpre : pyStartsWith ("ERROR: " ++ msg) "ERROR:" = true := by
      have h : ("ERROR: " ++ msg : String) = "ERROR:" ++ (" " ++ msg) := by
        rw [← String.append_assoc]
        rfl
      rw [h]
      exact pyStartsWith_append_self "ERROR:" (" " ++ msg)
    apply List.mem_filter.mpr
    refine ⟨?_, hpre⟩
    unfold read_output_decode_failure
    exact List.mem_append_right _ (List.mem_singleton.mpr rfl)

/-- Witness for C10: a stdout line `"ERROR: boom"` (no stderr involved) is in
the error accumulation. -/
theorem error_tagging_by_text_witness :
    "ERROR: boom" ∈ error_lines ["ok", "ERROR: boom"] :=
  (error_tagging_by_text.1 ["ok", "ERROR: boom"] "ERROR: boom").mpr ⟨by decide, by decide⟩
